import Mathlib

/-!
Shallow embedding of the SSO/OIDC bearer-token subsystem:
the expiration policy and data model (`packages/core/src/auth/sso/model.ts`),
the redirect listener (`AuthSSOServer`), and the `SsoAccessTokenProvider`
orchestration (`getToken`, `refreshToken`, `invalidate`, browser open step).

Time is modelled as milliseconds since the epoch, an `Int` matching
`Date.now()` / `Date.getTime()`. JavaScript promise settlement is modelled
as a one-shot `Option Outcome` slot. Cache and network collaborators are
modelled as explicit state plus outcome oracles, with an effect ledger
recording the externally visible calls each operation makes.
-/

/-- SsoToken from `model.ts`: optional fields are `Option`s. -/
structure SsoToken where
  identity : Option String := none
  accessToken : String
  expiresAt : Int
  tokenType : Option String := none
  refreshToken : Option String := none
deriving DecidableEq, Repr

/-- ClientRegistration from `model.ts`. -/
structure ClientRegistration where
  clientId : String
  clientSecret : String
  expiresAt : Int
  scopes : Option (List String) := none
  issuerUrl : Option String := none
deriving DecidableEq, Repr

/-- SsoProfile from `model.ts`. -/
structure SsoProfile where
  region : String
  startUrl : String
  accountId : Option String := none
  roleName : Option String := none
  scopes : Option (List String) := none
  identifier : Option String := none
deriving DecidableEq, Repr

def builderIdStartUrl : String := "https://view.awsapps.com/start"

def trustedDomainCancellation : String := "TrustedDomainCancellation"

/-- Constant `expirationBufferMs` from `model.ts`. -/
def expirationBufferMs : Int := 60000

/-- isExpired from `model.ts`:
`globals.clock.Date.now() + expirationBufferMs >= expirable.expiresAt.getTime()`.
The current clock value is passed explicitly. -/
def isExpired (now : Int) (expiresAt : Int) : Bool :=
  decide (now + expirationBufferMs ≥ expiresAt)

/-- isDeprecatedAuth from `model.ts`: `registration.issuerUrl === undefined`. -/
def isDeprecatedAuth (r : ClientRegistration) : Bool :=
  r.issuerUrl.isNone

/-! ## Redirect listener (`AuthSSOServer`, `server.ts`) -/

/-- The query parameters the listener reads from a redirect request.
`none` models an absent parameter; `some ""` models a parameter that is
present with an empty value (`URLSearchParams.get` returns the empty
string there, and `has` returns `true`). -/
structure QueryParams where
  code : Option String := none
  state : Option String := none
  error : Option String := none
  error_description : Option String := none
deriving DecidableEq, Repr

/-- The typed failures raised by `AuthSSOServer` toward its pending future. -/
inductive AuthFailure where
  | authError (error errorDescription : String)
  | missingCode
  | missingState
  | invalidState
deriving DecidableEq, Repr

/-- Message text of each failure, as built by the error-class constructors
in `server.ts` (`AuthError` interpolates the two strings). -/
def AuthFailure.message : AuthFailure → String
  | .authError e d => e ++ ": " ++ d
  | .missingCode => "AuthSSOServer: missing code"
  | .missingState => "AuthSSOServer: missing state"
  | .invalidState => "AuthSSOServer: invalid state"

/-- Settlement of the authentication future: rejection with a typed failure
or resolution with the authorization code. -/
inductive Outcome where
  | rejected (failure : AuthFailure)
  | resolved (code : String)
deriving DecidableEq, Repr

/-- handleToken from `server.ts`. JavaScript truthiness: `if (!code)` fires
for `null` and for the empty string alike, and likewise `if (!state)`;
only then is the strict comparison `state !== this.state` made. -/
def handleToken (expectedState : String) (p : QueryParams) : Outcome :=
  match p.code with
  | none => .rejected .missingCode
  | some code =>
    if code = "" then .rejected .missingCode
    else
      match p.state with
      | none => .rejected .missingState
      | some st =>
        if st = "" then .rejected .missingState
        else if st ≠ expectedState then .rejected .invalidState
        else .resolved code

/-- handleAuthentication from `server.ts`: the provider-error branch uses
`params.has`, so presence (even with empty value) is what counts there. -/
def handleAuthentication (expectedState : String) (p : QueryParams) : Outcome :=
  match p.error, p.error_description with
  | some err, some desc => .rejected (.authError err desc)
  | _, _ => handleToken expectedState p

/-- The request-handling policy exactly as the specification states it for
C2: the `code` and `state` branches are keyed on parameter ABSENCE only.
This definition follows the claim wording, to be compared with
`handleAuthentication`, which follows the source. -/
def handleAuthenticationClaimed (expectedState : String) (p : QueryParams) : Outcome :=
  match p.error, p.error_description with
  | some err, some desc => .rejected (.authError err desc)
  | _, _ =>
    match p.code with
    | none => .rejected .missingCode
    | some code =>
      match p.state with
      | none => .rejected .missingState
      | some st =>
        if st ≠ expectedState then .rejected .invalidState
        else .resolved code

/-- The amended policy: as claimed, except that an absent OR EMPTY `code`
rejects with MissingCodeError, and an absent or empty `state` rejects with
MissingStateError before the state comparison. -/
def handleAuthenticationAmendedSpec (expectedState : String) (p : QueryParams) : Outcome :=
  match p.error, p.error_description with
  | some err, some desc => .rejected (.authError err desc)
  | _, _ =>
    if p.code = none ∨ p.code = some "" then .rejected .missingCode
    else if p.state = none ∨ p.state = some "" then .rejected .missingState
    else if p.state ≠ some expectedState then .rejected .invalidState
    else .resolved (p.code.getD "")

/-! ## Claims about the expiration policy and the handler -/

/-- C6: `isExpired` returns true exactly when `now + 60000 ≥ expiresAt`;
in particular it is true for every expiry in the past or at most 60000 ms
in the future, and false for every expiry strictly more than 60000 ms in
the future. -/
theorem c6_isExpired_buffer (now expiresAt : Int) :
    (isExpired now expiresAt = true ↔ now + 60000 ≥ expiresAt) ∧
    (expiresAt ≤ now + 60000 → isExpired now expiresAt = true) ∧
    (now + 60000 < expiresAt → isExpired now expiresAt = false) := by
  unfold isExpired expirationBufferMs
  refine ⟨by simp, fun h => by simp; omega, fun h => by simp; omega⟩

/-- C6 witness: concrete instances of every hypothesis of
`c6_isExpired_buffer`. -/
theorem c6_isExpired_buffer_witness :
    (isExpired 1000 61000 = true ↔ (1000 : Int) + 60000 ≥ 61000) ∧
    (isExpired 1000 61000 = true) ∧
    (isExpired 1000 61001 = false) :=
  ⟨(c6_isExpired_buffer 1000 61000).1,
   (c6_isExpired_buffer 1000 61000).2.1 (by decide),
   (c6_isExpired_buffer 1000 61001).2.2 (by decide)⟩

/-- C2 counterexample: the request `?code=&state=state` (code present but
empty) against construction-time state "state" is rejected by the code with
MissingCodeError, while the claimed policy would resolve it successfully
with the empty code value. -/
theorem c2_handleAuthentication_counterexample :
    handleAuthentication "state"
        { code := some "", state := some "state" } = .rejected .missingCode ∧
    handleAuthenticationClaimed "state"
        { code := some "", state := some "state" } = .resolved "" := by
  exact ⟨by decide, by decide⟩

/-- C2 (amended): the handler follows the claimed decision order, with the
single amendment that an absent-or-empty `code` (resp. `state`) triggers
MissingCodeError (resp. MissingStateError). -/
theorem c2_handleAuthentication_amended (expectedState : String) (p : QueryParams) :
    handleAuthentication expectedState p =
      handleAuthenticationAmendedSpec expectedState p := by
  obtain ⟨c, s, e, d⟩ := p
  cases e <;> cases d <;>
    simp only [handleAuthentication, handleAuthenticationAmendedSpec, handleToken] <;>
    cases c <;> cases s <;> simp

/-- C9: a query holding only one of `error`/`error_description` is not
treated as a provider auth error and falls through to the code/state
checks; concretely, `error=foo&code=C&state=S` with matching state S
resolves with C, and `error=foo` alone rejects with MissingCodeError. -/
theorem c9_error_requires_description :
    (∀ (expectedState : String) (p : QueryParams),
        (p.error.isSome && p.error_description.isSome) = false →
        handleAuthentication expectedState p = handleToken expectedState p) ∧
    handleAuthentication "S"
        { error := some "foo", code := some "C", state := some "S" } = .resolved "C" ∧
    handleAuthentication "S" { error := some "foo" } = .rejected .missingCode := by
  refine ⟨fun es p h => ?_, by decide, by decide⟩
  obtain ⟨c, s, e, d⟩ := p
  cases e <;> cases d <;> simp_all [handleAuthentication]

/-- C9 witness: the fall-through clause applied at a concrete query having
`error` but no `error_description`. -/
theorem c9_error_requires_description_witness :
    handleAuthentication "S" { error := some "foo", code := some "C", state := some "S" } =
      handleToken "S" { error := some "foo", code := some "C", state := some "S" } :=
  c9_error_requires_description.1 "S"
    { error := some "foo", code := some "C", state := some "S" } (by decide)

/-! ## Listener lifetime: one-shot settlement (`AuthSSOServer`) -/

/-- The registered callback path (`oauthCallback` in `server.ts`). -/
def oauthCallback : String := "/"

/-- An inbound HTTP GET request as seen by the listener handler. -/
structure Request where
  path : String
  params : QueryParams
deriving DecidableEq, Repr

/-- One-shot settlement of a JavaScript promise: once the slot holds an
outcome, later resolve/reject calls are ignored. -/
def settle (slot : Option Outcome) (o : Outcome) : Option Outcome :=
  match slot with
  | some settledOutcome => some settledOutcome
  | none => some o

/-- The listener state: the settlement slot of `authenticationPromise`. -/
structure ServerState where
  settled : Option Outcome := none
deriving DecidableEq, Repr

/-- One request through the `http.createServer` callback in `server.ts`:
on the registered path the query is run through `handleAuthentication`
(whose resolve/reject is absorbed by the one-shot slot) and an HTTP 200 is
written; on any other path the handler only logs, returning no response. -/
def handleRequest (expectedState : String) (st : ServerState) (r : Request) :
    ServerState × Option Nat :=
  if r.path = oauthCallback then
    ({ settled := settle st.settled (handleAuthentication expectedState r.params) }, some 200)
  else
    (st, none)

/-- Sequential processing of a list of inbound requests. -/
def processRequests (expectedState : String) (st : ServerState) :
    List Request → ServerState
  | [] => st
  | r :: rs => processRequests expectedState (handleRequest expectedState st r).1 rs

lemma handleRequest_settled_frozen (expectedState : String) (st : ServerState)
    (r : Request) (o : Outcome) (h : st.settled = some o) :
    (handleRequest expectedState st r).1.settled = some o := by
  unfold handleRequest
  split <;> simp [settle, h]

lemma processRequests_settled_frozen (expectedState : String) (o : Outcome) :
    ∀ (rs : List Request) (st : ServerState), st.settled = some o →
      (processRequests expectedState st rs).settled = some o := by
  intro rs
  induction rs with
  | nil => intro st h; exact h
  | cons r rs ih =>
    intro st h
    exact ih _ (handleRequest_settled_frozen expectedState st r o h)

/-- C3: over any request sequence from the initial state, the future's
settlement equals the outcome of the first request to the registered path
(hence it settles at most once, and the first outcome wins); a request
arriving once the future is settled leaves the settlement unchanged; and
every request to the registered path is answered with HTTP 200. -/
theorem c3_single_settlement (expectedState : String) :
    (∀ rs : List Request,
        (processRequests expectedState { settled := none } rs).settled =
          (rs.find? fun r => r.path = oauthCallback).map
            (fun r => handleAuthentication expectedState r.params)) ∧
    (∀ (st : ServerState) (r : Request) (o : Outcome), st.settled = some o →
        (handleRequest expectedState st r).1.settled = some o) ∧
    (∀ (st : ServerState) (r : Request), r.path = oauthCallback →
        (handleRequest expectedState st r).2 = some 200) := by
  refine ⟨fun rs => ?_, fun st r o h => handleRequest_settled_frozen expectedState st r o h,
    fun st r h => by simp [handleRequest, h]⟩
  induction rs with
  | nil => rfl
  | cons r rs ih =>
    by_cases h : r.path = oauthCallback
    · rw [processRequests]
      have hstep : (handleRequest expectedState { settled := none } r).1 =
          { settled := some (handleAuthentication expectedState r.params) } := by
        simp [handleRequest, h, settle]
      rw [hstep, processRequests_settled_frozen expectedState _ rs _ rfl, List.find?]
      simp [h]
    · rw [processRequests]
      have hstep : (handleRequest expectedState { settled := none } r).1 =
          { settled := none } := by
        simp [handleRequest, h]
      rw [hstep, List.find?]
      simp only [decide_eq_false h]
      exact ih

/-- C3 witness: the settled-stays-settled and always-200 clauses of
`c3_single_settlement` applied at concrete states and requests, plus the
first-request-wins clause evaluated on a two-request trace. -/
theorem c3_single_settlement_witness :
    (handleRequest "abc" { settled := some (.resolved "XYZ") }
        { path := "/", params := { code := some "other", state := some "abc" } }).1.settled =
      some (.resolved "XYZ") ∧
    (handleRequest "abc" { settled := some (.resolved "XYZ") }
        { path := "/", params := {} }).2 = some 200 ∧
    (processRequests "abc" { settled := none }
        [{ path := "/", params := { code := some "XYZ", state := some "abc" } },
         { path := "/", params := {} }]).settled = some (.resolved "XYZ") := by
  refine ⟨(c3_single_settlement "abc").2.1 _ _ _ rfl,
    (c3_single_settlement "abc").2.2 _ _ rfl, ?_⟩
  rw [(c3_single_settlement "abc").1]
  decide

/-! ## redirectUri (`AuthSSOServer.redirectUri`) -/

/-- Field `baseUrl` of `AuthSSOServer`. -/
def serverBaseUrl : String := "http://127.0.0.1"

/-- redirectUri from `server.ts`: the template is
`${this.baseUrl}:${this.getPort()}`, the bound port being read from the
listening socket address. -/
def redirectUri (boundPort : Nat) : String :=
  serverBaseUrl ++ ":" ++ toString boundPort

/-- C8 counterexample: at the fixed port the server binds, the redirect URI
carries no trailing slash, contradicting the claimed
`http://127.0.0.1:<port>/` shape. -/
theorem c8_redirectUri_counterexample :
    redirectUri 60821 ≠ "http://127.0.0.1:60821/" := by
  decide

/-- C8 (amended): after a successful `start()` the redirect URI is exactly
`http://127.0.0.1:<port>` for the bound port, with no trailing slash. -/
theorem c8_redirectUri_amended (boundPort : Nat) :
    redirectUri boundPort = "http://127.0.0.1:" ++ toString boundPort := by
  unfold redirectUri serverBaseUrl
  rw [show ("http://127.0.0.1" ++ ":" : String) = "http://127.0.0.1:" from rfl]

/-! ## Access token provider (`SsoAccessTokenProvider`) -/

/-- The externally visible calls an operation makes, in order. -/
inductive Effect where
  | oidcCreateToken
  | saveToken
  | clearToken
  | clearRegistration
  | telemetryRefreshCredentials
  | browserOpen
deriving DecidableEq, Repr

/-- The on-disk cache record built by `formatToken`: token and registration
bundled with provenance. Legacy records may lack the registration. -/
structure CachedData where
  token : SsoToken
  registration : Option ClientRegistration
  region : String
  startUrl : String
deriving DecidableEq, Repr

/-- The two cache slots this provider instance touches: the token record
under `tokenCacheKey` and the registration under `registrationCacheKey`. -/
structure Cache where
  tokenEntry : Option CachedData := none
  registrationEntry : Option ClientRegistration := none
deriving DecidableEq, Repr

/-- Classification of an error thrown by the OIDC client, per the
predicates used in `refreshToken`: `isNetworkError(err)`,
`err instanceof SSOOIDCServiceException`, and `isClientFault(err)`. -/
structure ProviderError where
  isNetworkError : Bool
  isSsoOidcServiceException : Bool
  isClientFault : Bool
deriving DecidableEq, Repr

/-- tokenCacheKey getter: `this.profile.identifier ?? this.profile.startUrl`. -/
def tokenCacheKey (profile : SsoProfile) : String :=
  profile.identifier.getD profile.startUrl

/-- formatToken from `model.ts`. -/
def formatToken (profile : SsoProfile) (token : SsoToken)
    (registration : ClientRegistration) : CachedData :=
  { token := token, registration := some registration,
    region := profile.region, startUrl := profile.startUrl }

/-- Failure of a cache `clear` call. -/
inductive CacheError where
  | clearFailed
deriving DecidableEq, Repr

/-- Settlement record of one promise, as reported by `Promise.allSettled`. -/
inductive SettledResult (ε α : Type) where
  | fulfilled (value : α)
  | rejected (reason : ε)
deriving DecidableEq, Repr

/-- Promise.allSettled: awaits every promise and reports each settlement;
it never rejects and never drops an entry. -/
def allSettled {ε α : Type} : List (Except ε α) → List (SettledResult ε α) :=
  List.map fun p =>
    match p with
    | .ok a => .fulfilled a
    | .error e => .rejected e

/-- `this.cache.token.clear(this.tokenCacheKey, ...)`: removes the token
entry unless the call fails, in which case the entry is untouched. -/
def clearTokenOp (fails : Bool) (c : Cache) : Cache × Except CacheError Unit :=
  if fails then (c, .error .clearFailed)
  else ({ c with tokenEntry := none }, .ok ())

/-- `this.cache.registration.clear(this.registrationCacheKey, ...)`. -/
def clearRegistrationOp (fails : Bool) (c : Cache) : Cache × Except CacheError Unit :=
  if fails then (c, .error .clearFailed)
  else ({ c with registrationEntry := none }, .ok ())

/-- invalidate from `model.ts`: both clear calls are created, then
`Promise.allSettled` awaits the pair, so the operation itself always
completes and yields both settlements. The two `fails` flags are the
outcome oracle for the respective clear calls. -/
def invalidate (tokenClearFails regClearFails : Bool) (c : Cache) :
    Cache × List (SettledResult CacheError Unit) × List Effect :=
  let p1 := clearTokenOp tokenClearFails c
  let p2 := clearRegistrationOp regClearFails p1.1
  (p2.1, allSettled [p1.2, p2.2], [.clearToken, .clearRegistration])

/-- C5: invalidate issues both clear calls and awaits both settlements no
matter which of them fails: the effect ledger always records both calls,
the settlement list always has both entries, and each entry that does not
fail is cleared even when the other clear call fails. -/
theorem c5_invalidate_independent (tokenClearFails regClearFails : Bool) (c : Cache) :
    (invalidate tokenClearFails regClearFails c).2.2 =
        [.clearToken, .clearRegistration] ∧
    (invalidate tokenClearFails regClearFails c).2.1.length = 2 ∧
    (tokenClearFails = false →
        (invalidate tokenClearFails regClearFails c).1.tokenEntry = none) ∧
    (regClearFails = false →
        (invalidate tokenClearFails regClearFails c).1.registrationEntry = none) := by
  cases tokenClearFails <;> cases regClearFails <;>
    simp [invalidate, clearTokenOp, clearRegistrationOp, allSettled]

/-- A concrete registration used as witness input. -/
def sampleRegistration : ClientRegistration :=
  { clientId := "registrationId", clientSecret := "registrationSecret",
    expiresAt := 7200000, issuerUrl := some "https://example.awsapps.com/start" }

/-- A concrete expired token holding a refresh token, used as witness input. -/
def sampleExpiredToken : SsoToken :=
  { accessToken := "oldAccess", expiresAt := 10000, refreshToken := some "refresh" }

/-- A concrete unexpired token, used as witness input. -/
def sampleFreshToken : SsoToken :=
  { accessToken := "freshAccess", expiresAt := 7200000 }

/-- A concrete profile, used as witness input. -/
def sampleProfile : SsoProfile :=
  { region := "us-east-1", startUrl := "https://example.awsapps.com/start" }

/-- A concrete cached record pairing the expired token with the
registration. -/
def sampleCachedData : CachedData :=
  { token := sampleExpiredToken, registration := some sampleRegistration,
    region := "us-east-1", startUrl := "https://example.awsapps.com/start" }

/-- A concrete cache holding a token record paired with a registration. -/
def sampleCache : Cache :=
  { tokenEntry := some sampleCachedData,
    registrationEntry := some sampleRegistration }

/-- A transient network failure of the OIDC client. -/
def networkError : ProviderError :=
  { isNetworkError := true, isSsoOidcServiceException := false,
    isClientFault := false }

/-- A non-network, non-client-fault failure of the OIDC client. -/
def serverFaultError : ProviderError :=
  { isNetworkError := false, isSsoOidcServiceException := true,
    isClientFault := false }

/-- A non-network client-fault service exception of the OIDC client. -/
def clientFaultError : ProviderError :=
  { isNetworkError := false, isSsoOidcServiceException := true,
    isClientFault := true }

/-- C5 witness: with the token clear failing and the registration clear
succeeding (and vice versa), the other clear still happens; both
settlements are always awaited. -/
theorem c5_invalidate_independent_witness :
    (invalidate true false sampleCache).1.registrationEntry = none ∧
    (invalidate false true sampleCache).1.tokenEntry = none ∧
    (invalidate true true sampleCache).2.1.length = 2 :=
  ⟨(c5_invalidate_independent true false _).2.2.2 rfl,
   (c5_invalidate_independent false true _).2.2.1 rfl,
   (c5_invalidate_independent true true _).2.1⟩

/-- refreshToken from `model.ts`, with the `oidc.createToken` outcome
supplied as an oracle. On success the new token is formatted with the same
registration and saved under the token cache key. On failure, telemetry is
emitted unless the error is a network error; a client-fault service
exception additionally clears the token entry; the error is rethrown. -/
def refreshToken (profile : SsoProfile) (c : Cache) (token : SsoToken)
    (registration : ClientRegistration)
    (oracle : Except ProviderError SsoToken) :
    Except ProviderError CachedData × Cache × List Effect :=
  match oracle with
  | .ok response =>
    let refreshed := formatToken profile response registration
    (.ok refreshed, { c with tokenEntry := some refreshed },
      [.oidcCreateToken, .saveToken])
  | .error err =>
    if err.isNetworkError then
      (.error err, c, [.oidcCreateToken])
    else if err.isSsoOidcServiceException && err.isClientFault then
      (.error err, { c with tokenEntry := none },
        [.oidcCreateToken, .telemetryRefreshCredentials, .clearToken])
    else
      (.error err, c, [.oidcCreateToken, .telemetryRefreshCredentials])

/-- C4: when refreshToken fails: on a network error no telemetry is
emitted and the cache is untouched; on a non-network error telemetry is
emitted; additionally on a client-fault service exception the token entry
is cleared while the registration entry is untouched; and in every failure
case the original error is re-propagated. -/
theorem c4_refreshToken_failure (profile : SsoProfile) (c : Cache)
    (token : SsoToken) (registration : ClientRegistration) (err : ProviderError) :
    (err.isNetworkError = true →
        (refreshToken profile c token registration (.error err)).2.2 =
            [.oidcCreateToken] ∧
        (refreshToken profile c token registration (.error err)).2.1 = c) ∧
    (err.isNetworkError = false →
        .telemetryRefreshCredentials ∈
          (refreshToken profile c token registration (.error err)).2.2) ∧
    (err.isNetworkError = false → err.isSsoOidcServiceException = true →
        err.isClientFault = true →
        (refreshToken profile c token registration (.error err)).2.1.tokenEntry = none ∧
        (refreshToken profile c token registration (.error err)).2.1.registrationEntry =
          c.registrationEntry) ∧
    (refreshToken profile c token registration (.error err)).1 = .error err := by
  obtain ⟨n, s, f⟩ := err
  cases n <;> cases s <;> cases f <;> simp [refreshToken]

/-- C4 witness: `c4_refreshToken_failure` applied to a network error, a
plain non-network error, and a non-network client-fault service exception
at concrete cache contents. -/
theorem c4_refreshToken_failure_witness :
    (refreshToken sampleProfile sampleCache sampleExpiredToken sampleRegistration
        (.error networkError)).2.2 = [.oidcCreateToken] ∧
    .telemetryRefreshCredentials ∈
      (refreshToken sampleProfile sampleCache sampleExpiredToken sampleRegistration
        (.error serverFaultError)).2.2 ∧
    (refreshToken sampleProfile sampleCache sampleExpiredToken sampleRegistration
        (.error clientFaultError)).2.1.tokenEntry = none :=
  ⟨((c4_refreshToken_failure _ _ _ _ _).1 rfl).1,
   (c4_refreshToken_failure _ _ _ _ _).2.1 rfl,
   ((c4_refreshToken_failure _ _ _ _ _).2.2.1 rfl rfl rfl).1⟩

/-- getToken from `model.ts`: load the cached record; return its token
when the record is absent or the token unexpired; when expired, refresh if
a present unexpired registration and a refresh token exist; otherwise
invalidate all cached state and return nothing. The `oidc.createToken`
outcome used by the refresh is supplied as an oracle. -/
def getToken (profile : SsoProfile) (c : Cache) (now : Int)
    (oracle : Except ProviderError SsoToken) :
    Except ProviderError (Option SsoToken) × Cache × List Effect :=
  match c.tokenEntry with
  | none => (.ok none, c, [])
  | some data =>
    if isExpired now data.token.expiresAt = false then
      (.ok (some data.token), c, [])
    else
      match data.registration with
      | some reg =>
        if !isExpired now reg.expiresAt && data.token.refreshToken.isSome then
          match refreshToken profile c data.token reg oracle with
          | (.ok refreshed, c2, fx) => (.ok (some refreshed.token), c2, fx)
          | (.error e, c2, fx) => (.error e, c2, fx)
        else
          (.ok none, (invalidate false false c).1, (invalidate false false c).2.2)
      | none =>
        (.ok none, (invalidate false false c).1, (invalidate false false c).2.2)

lemma refreshToken_no_browser (profile : SsoProfile) (c : Cache)
    (token : SsoToken) (registration : ClientRegistration)
    (oracle : Except ProviderError SsoToken) :
    Effect.browserOpen ∉ (refreshToken profile c token registration oracle).2.2 := by
  cases oracle with
  | ok response => simp [refreshToken]
  | error err =>
    obtain ⟨n, s, f⟩ := err
    cases n <;> cases s <;> cases f <;> simp [refreshToken]

/-- C1: getToken returns the cached token unchanged when a record exists
and its token is unexpired; when expired with a present unexpired
registration and a refresh token, it refreshes (saving the refreshed
record) and returns the refreshed token; when expired with no usable
registration/refresh-token pair it clears both cache entries and returns
nothing; and for every input its effect ledger never contains the browser
authorization flow. -/
theorem c1_getToken_cases (profile : SsoProfile) (c : Cache) (now : Int)
    (oracle : Except ProviderError SsoToken) :
    (∀ data, c.tokenEntry = some data →
        isExpired now data.token.expiresAt = false →
        getToken profile c now oracle = (.ok (some data.token), c, [])) ∧
    (∀ data reg response, c.tokenEntry = some data →
        isExpired now data.token.expiresAt = true →
        data.registration = some reg →
        isExpired now reg.expiresAt = false →
        data.token.refreshToken.isSome = true →
        oracle = .ok response →
        getToken profile c now oracle =
          (.ok (some response),
            { c with tokenEntry := some (formatToken profile response reg) },
            [.oidcCreateToken, .saveToken])) ∧
    (∀ data, c.tokenEntry = some data →
        isExpired now data.token.expiresAt = true →
        (∀ reg, data.registration = some reg →
            isExpired now reg.expiresAt = true ∨
            data.token.refreshToken.isSome = false) →
        getToken profile c now oracle =
          (.ok none, { tokenEntry := none, registrationEntry := none },
            [.clearToken, .clearRegistration])) ∧
    Effect.browserOpen ∉ (getToken profile c now oracle).2.2 := by
  refine ⟨?_, ?_, ?_, ?_⟩
  · intro data hc hexp
    simp [getToken, hc, hexp]
  · intro data reg response hc hexp hr hre hrt horacle
    simp [getToken, hc, hexp, hr, hre, hrt, horacle, refreshToken, formatToken]
  · intro data hc hexp hno
    cases hr : data.registration with
    | none =>
      simp [getToken, hc, hexp, hr, invalidate, clearTokenOp, clearRegistrationOp,
        allSettled]
    | some reg =>
      have hcond : (!isExpired now reg.expiresAt && data.token.refreshToken.isSome) = false := by
        rcases hno reg hr with h | h <;> simp [h]
      simp [getToken, hc, hexp, hr, hcond, invalidate, clearTokenOp,
        clearRegistrationOp, allSettled]
  · cases hc : c.tokenEntry with
    | none => simp [getToken, hc]
    | some data =>
      cases hexp : isExpired now data.token.expiresAt with
      | false => simp [getToken, hc, hexp]
      | true =>
        cases hr : data.registration with
        | none =>
          simp [getToken, hc, hexp, hr, invalidate, clearTokenOp,
            clearRegistrationOp, allSettled]
        | some reg =>
          cases hcond : (!isExpired now reg.expiresAt && data.token.refreshToken.isSome) with
          | false =>
            simp [getToken, hc, hexp, hr, hcond, invalidate, clearTokenOp,
              clearRegistrationOp, allSettled]
          | true =>
            have hnb := refreshToken_no_browser profile c data.token reg oracle
            cases horacle : refreshToken profile c data.token reg oracle with
            | mk res rest =>
              obtain ⟨c2, fx⟩ := rest
              cases res <;>
                simpa [getToken, hc, hexp, hr, hcond, horacle] using
                  (by rw [horacle] at hnb; simpa using hnb : Effect.browserOpen ∉ fx)

/-- A cached record whose token is still fresh. -/
def freshCachedData : CachedData :=
  { token := sampleFreshToken, registration := some sampleRegistration,
    region := "us-east-1", startUrl := "https://example.awsapps.com/start" }

/-- A cache holding the fresh record. -/
def freshCache : Cache :=
  { tokenEntry := some freshCachedData,
    registrationEntry := some sampleRegistration }

/-- A cached record with an expired token and no paired registration. -/
def noRegCachedData : CachedData :=
  { token := sampleExpiredToken, registration := none,
    region := "us-east-1", startUrl := "https://example.awsapps.com/start" }

/-- A cache holding the registration-less expired record. -/
def noRegCache : Cache :=
  { tokenEntry := some noRegCachedData,
    registrationEntry := some sampleRegistration }

/-- C1 witness: the three hypothesis-guarded clauses of
`c1_getToken_cases` applied at concrete caches and clock value 0. -/
theorem c1_getToken_cases_witness :
    getToken sampleProfile freshCache 0 (.error networkError) =
      (.ok (some sampleFreshToken), freshCache, []) ∧
    (getToken sampleProfile sampleCache 0 (.ok sampleFreshToken)).1 =
      .ok (some sampleFreshToken) ∧
    getToken sampleProfile noRegCache 0 (.error networkError) =
      (.ok none, { tokenEntry := none, registrationEntry := none },
        [.clearToken, .clearRegistration]) := by
  refine ⟨(c1_getToken_cases sampleProfile freshCache 0 (.error networkError)).1
      freshCachedData rfl (by decide), ?_, ?_⟩
  · rw [(c1_getToken_cases sampleProfile sampleCache 0 (.ok sampleFreshToken)).2.1
      sampleCachedData sampleRegistration sampleFreshToken rfl (by decide) rfl
      (by decide) rfl rfl]
  · exact (c1_getToken_cases sampleProfile noRegCache 0 (.error networkError)).2.2.1
      noRegCachedData rfl (by decide) (fun reg h => by simp [noRegCachedData] at h)

/-- C10: with no cached record under the token cache key, getToken returns
nothing, leaves the cache exactly as it was, and performs no cache call at
all; moreover a token-clearing effect can only ever arise from a cached
record whose token is expired. -/
theorem c10_getToken_empty_frame (profile : SsoProfile) (now : Int)
    (oracle : Except ProviderError SsoToken) :
    (∀ c : Cache, c.tokenEntry = none →
        getToken profile c now oracle = (.ok none, c, [])) ∧
    (∀ c : Cache, Effect.clearToken ∈ (getToken profile c now oracle).2.2 →
        ∃ data, c.tokenEntry = some data ∧
          isExpired now data.token.expiresAt = true) := by
  constructor
  · intro c hc
    simp [getToken, hc]
  · intro c hmem
    cases hc : c.tokenEntry with
    | none => rw [getToken, hc] at hmem; simp at hmem
    | some data =>
      cases hexp : isExpired now data.token.expiresAt with
      | false => rw [getToken, hc] at hmem; simp [hexp] at hmem
      | true => exact ⟨data, rfl, hexp⟩

/-- C10 witness: `c10_getToken_empty_frame` applied to the empty cache, and
its invalidation clause applied to a cache whose run does clear the token. -/
theorem c10_getToken_empty_frame_witness :
    getToken sampleProfile { } 0 (.error networkError) = (.ok none, { }, []) ∧
    ∃ data, noRegCache.tokenEntry = some data ∧
      isExpired 0 data.token.expiresAt = true :=
  ⟨(c10_getToken_empty_frame sampleProfile 0 (.error networkError)).1 { } rfl,
   (c10_getToken_empty_frame sampleProfile 0 (.error networkError)).2 noRegCache
     (by decide)⟩

/-! ## Browser open step (`openSsoPortalLink` and `authorize`) -/

/-- Errors surfaced by the interactive authorization flow. ToolkitError
carries its `code` and `cancelled` option; CancellationError carries its
reason; protocol failures from the redirect listener are wrapped. -/
inductive FlowError where
  | toolkitError (message code : String) (cancelled : Bool)
  | cancellationError (reason : String)
  | authRedirect (failure : AuthFailure)
deriving DecidableEq, Repr

/-- Whether an error is a cancellation: ToolkitError exposes a `cancelled`
flag, and CancellationError is a cancellation by type. -/
def FlowError.isCancellation : FlowError → Bool
  | .toolkitError _ _ cancelled => cancelled
  | .cancellationError _ => true
  | .authRedirect _ => false

/-- The error openSsoPortalLink throws when `vscode.env.openExternal`
resolves to false. -/
def trustedDomainCancelError : FlowError :=
  .toolkitError "User clicked Copy or Cancel during the Trusted Domain popup"
    trustedDomainCancellation true

/-- openSsoPortalLink from `model.ts`: awaits the external browser open
(the recorded effect) and throws the TrustedDomainCancellation ToolkitError
when the open was declined; otherwise it returns the (true) flag. -/
def openSsoPortalLink (didOpenUrl : Bool) : Except FlowError Bool × List Effect :=
  ( if !didOpenUrl then .error trustedDomainCancelError
    else .ok didOpenUrl,
    [.browserOpen])

/-- Lines 320-322 of the provider `authorize` flow:
`if (!(await openSsoPortalLink(location))) throw new CancellationError('user')`.
A throw inside openSsoPortalLink propagates; only a returned false would
reach the CancellationError branch. -/
def authorizeOpenStep (didOpenUrl : Bool) : Except FlowError Unit × List Effect :=
  match openSsoPortalLink didOpenUrl with
  | (.error e, fx) => (.error e, fx)
  | (.ok opened, fx) =>
    if !opened then (.error (.cancellationError "user"), fx) else (.ok (), fx)

/-- C7 counterexample: when the user declines the browser open, the flow
does not fail with CancellationError reason "user": the throw inside
openSsoPortalLink preempts that branch. -/
theorem c7_openStep_counterexample :
    (authorizeOpenStep false).1 ≠ .error (.cancellationError "user") :=
  fun h => FlowError.noConfusion (Except.error.inj h)

/-- C7 (amended): when the browser open is declined, the operation fails
with the TrustedDomainCancellation ToolkitError whose cancelled flag is
set - a typed cancellation error distinct from the authorization/protocol
failures - while an accepted open produces no error; the claimed
CancellationError "user" branch is unreachable. -/
theorem c7_openStep_amended :
    (authorizeOpenStep false).1 = .error trustedDomainCancelError ∧
    trustedDomainCancelError.isCancellation = true ∧
    (∀ failure : AuthFailure, trustedDomainCancelError ≠ .authRedirect failure) ∧
    (authorizeOpenStep true).1 = .ok () :=
  ⟨rfl, rfl, fun _ h => FlowError.noConfusion h, rfl⟩
